import Mathlib

/-!
# Verification of the piccolo suspendable-computation core

A shallow embedding of `src/callback.rs` and `src/stdlib/coroutine.rs`:
the opaque callable handle (`AnyCallback`), the continuation constructors
(`AnyContinuation`), and the coroutine standard library (`create`, `resume`,
`status` and the polling `ThreadSequence`).

Modelling conventions:
- The operand stack `&mut Stack<'gc>` is passed by value and returned: a Rust
  function `fn(&mut Stack) -> Result<T, Error>` becomes a Lean function
  `Stack → Stack × Except LuaError T` so that stack mutations are visible on
  both the success and the failure path, exactly as in Rust.
- Gc pointers are modelled as indices into explicit heaps (`List` of objects);
  allocation appends at the end, so every allocation has a fresh address.
  A dangling index, impossible for a real `Gc` pointer, is mapped to a
  distinguishable `panicked` outcome so that theorems can carry the pointer
  validity hypothesis explicitly.
- A Rust `panic!` / `.unwrap()` failure is a third outcome, distinct from
  `Ok` and `Err`, captured by `RunResult.panicked`.
- The `Mutation` context argument carries no observable state of its own and
  is elided.
- The `Thread` type lives outside this repository; its operations are
  modelled from the spec's stated contract (each such definition says so in
  its doc comment).
-/

namespace Piccolo

/-- The externally defined thread mode set `{Suspended, Running, Normal,
Return, Stopped}` (`ThreadMode` in the source's imports). -/
inductive ThreadMode : Type where
  | Suspended
  | Running
  | Normal
  | Return
  | Stopped
deriving DecidableEq, Repr

/-- The VM value type (`Value<'gc>`), restricted to the variants this core
touches. Gc-managed objects (strings aside) are represented by their heap
index. The floating point `Number` variant is never used by this core and is
omitted. -/
inductive Value : Type where
  | nil
  | boolean (b : Bool)
  | integer (n : Int)
  | string (s : String)
  | table (tid : Nat)
  | function (fid : Nat)
  | thread (tid : Nat)
deriving DecidableEq, Repr

/-- Modelled from the spec: `Value::type_name` is not under `src/`; the spec
describes type errors as carrying the argument's type name, with the standard
names used by the scripting language (`"function"`, `"thread"`, ...). -/
def Value.type_name : Value → String
  | .nil => ("nil")
  | .boolean _ => ("boolean")
  | .integer _ => ("number")
  | .string _ => ("string")
  | .table _ => ("table")
  | .function _ => ("function")
  | .thread _ => ("thread")

/-- The error type (`Error<'gc>`): constructible from a type-mismatch
description (`TypeError { expected, found }`), from a bad-thread-mode
description (`BadThreadMode { expected, found }`), and from a script value
(`RuntimeError(Value)`). -/
inductive LuaError : Type where
  | typeError (expected found : String)
  | badThreadMode (expected found : ThreadMode)
  | runtimeError (v : Value)
deriving DecidableEq, Repr

/-- Modelled from the spec: the error type is convertible to a script-visible
value (`err.to_value(mc)` in the source); the concrete conversion lives
outside `src/`. A runtime error carries its value; the descriptive errors
render as strings. -/
def LuaError.to_value : LuaError → Value
  | .runtimeError v => v
  | .typeError e f => .string (("type error, expected ") ++ e ++ (", found ") ++ f)
  | .badThreadMode _ _ => .string ("bad thread mode")

/-- The stateful step objects (`Sequence` implementations) defined in this
repository. `ThreadSequence` (coroutine.rs) is the only one, and it is a unit
struct: all of its working state lives on the operand stack and in the
thread. -/
inductive SequenceObj : Type where
  | threadSequence
deriving DecidableEq, Repr

/-- The execution outcome `CallbackReturn<'gc>`. Continuations attached to
`Yield` / `TailCall` are Gc pointers, modelled as heap indices (the coroutine
library only ever attaches `None`). -/
inductive CallbackReturn : Type where
  | Return
  | Yield (cont : Option Nat)
  | TailCall (fid : Nat) (cont : Option Nat)
  | Sequence (s : SequenceObj)
deriving DecidableEq, Repr

/-- The tri-valued outcome of running a fallible Rust function that may also
panic: `ok` / `err` mirror `Result`, `panicked` mirrors a `panic!` or a
failed `.unwrap()`. -/
inductive RunResult (α : Type) : Type where
  | ok (val : α)
  | err (e : LuaError)
  | panicked (msg : String)
deriving DecidableEq, Repr

/-- Modelled from the spec: the external `Thread` object, reduced to the
contract this core depends on — a current mode, the bound function, the
pending final result (available exactly when the mode is `Return`), and the
arguments most recently forwarded by `resume`. -/
structure Thread : Type where
  mode : ThreadMode
  fn : Option Nat
  pendingReturn : Option (Except LuaError (List Value))
  resumeArgs : List Value
deriving Repr

/-- Modelled from the spec: `Thread::new(mc)` allocates a fresh, not yet
started thread. -/
def Thread.new : Thread where
  mode := .Stopped
  fn := none
  pendingReturn := none
  resumeArgs := []

/-- Modelled from the spec: `start_suspended(function) -> Result<(), _>`
binds a function to a fresh thread and puts it in the Suspended mode. -/
def Thread.start_suspended (t : Thread) (f : Nat) : Except Unit Thread :=
  match t.mode with
  | .Stopped => .ok { mode := .Suspended, fn := some f, pendingReturn := none, resumeArgs := [] }
  | _ => .error ()

/-- Modelled from the spec: `resume(args) -> Result<(), _>` transitions a
Suspended thread toward execution — it stores the forwarded arguments and
moves the mode to `Normal` so the polling loop can drive it — and fails if
the thread is not Suspended. -/
def Thread.resume (t : Thread) (args : List Value) : Except Unit Thread :=
  match t.mode with
  | .Suspended => .ok { t with mode := .Normal, resumeArgs := args }
  | _ => .error ()

/-- Modelled from the spec: `take_return() -> Option<Result<Values, Error>>`
extracts the final result exactly once, only valid when the mode is
`Return`; afterwards the thread is spent (`Stopped`). -/
def Thread.take_return (t : Thread) : Option (Except LuaError (List Value)) × Thread :=
  match t.mode, t.pendingReturn with
  | .Return, some r => (some r, { t with mode := .Stopped, pendingReturn := none })
  | _, _ => (none, t)

/-- The operand stack: an ordered sequence of values. -/
abbrev Stack : Type := List Value

/-- A concrete implementation of the native-call interface (`Callback::call`):
given the operand stack, mutate it and produce an execution outcome or an
error. -/
abbrev CallbackImpl : Type := Stack → Stack × Except LuaError CallbackReturn

/-- The heap cell built by `AnyCallback::new`: a `HeaderCallback` pairing the
header's dispatch function — computed once at construction time from the
concrete implementation — with the implementation itself. Calling through
the handle reads the dispatch function and applies it to the cell's own
contents. -/
structure HeaderCallback : Type where
  header : CallbackImpl → Stack → Stack × Except LuaError CallbackReturn
  callback : CallbackImpl

/-- The heap of callback allocations; a `Gc<Header>` pointer is an index into
it. -/
abbrev CallbackHeap : Type := List HeaderCallback

/-- The opaque callable handle `AnyCallback<'gc>`: a single pointer, i.e. the
address of its backing allocation. -/
structure AnyCallback : Type where
  addr : Nat
deriving DecidableEq, Repr

/-- `AnyCallback::new`: allocate a `HeaderCallback` whose header dispatch
function invokes the concrete implementation's call logic; return the grown
heap and the handle to the fresh cell. Construction never fails. -/
def AnyCallback.new (heap : CallbackHeap) (c : CallbackImpl) : CallbackHeap × AnyCallback :=
  (heap ++ [{ header := fun cb stack => cb stack, callback := c }], { addr := heap.length })

/-- `AnyCallback::from_fn_with`: wrap a context value and a behavior function
into a `ContextCallback` whose call applies the behavior to the context, and
register it with `AnyCallback::new`. -/
def AnyCallback.from_fn_with {C : Type} (heap : CallbackHeap) (context : C)
    (call : C → Stack → Stack × Except LuaError CallbackReturn) :
    CallbackHeap × AnyCallback :=
  AnyCallback.new heap (fun stack => call context stack)

/-- `AnyCallback::from_fn`: the context-free behavior constructor, defined
through `from_fn_with` with a unit context. -/
def AnyCallback.from_fn (heap : CallbackHeap)
    (call : Stack → Stack × Except LuaError CallbackReturn) :
    CallbackHeap × AnyCallback :=
  AnyCallback.from_fn_with heap () (fun _ stack => call stack)

/-- `AnyCallback::as_ptr`: the handle's identity is the address of its
backing allocation. -/
def AnyCallback.as_ptr (h : AnyCallback) : Nat := h.addr

/-- `AnyCallback::call`: read the header's dispatch function out of the
pointed-to cell and invoke it on the cell's own contents and the given stack.
A dangling address (impossible for a live `Gc` pointer) is mapped to an error
placeholder. -/
def AnyCallback.call (heap : CallbackHeap) (h : AnyCallback) (stack : Stack) :
    Stack × Except LuaError CallbackReturn :=
  match heap[h.addr]? with
  | some hc => hc.header hc.callback stack
  | none => (stack, .error (.runtimeError .nil))

/-- `PartialEq for AnyCallback`: `self.as_ptr() == other.as_ptr()`. -/
def AnyCallback.eqv (a b : AnyCallback) : Bool :=
  a.as_ptr == b.as_ptr

/-- `Hash for AnyCallback`: feed the pointer to the hasher,
`self.as_ptr().hash(state)`; the hasher itself is a parameter. -/
def AnyCallback.hashWith (hasher : Nat → Nat) (a : AnyCallback) : Nat :=
  hasher a.as_ptr

/-- The type-erased continuation `AnyContinuation<'gc>`: a pair of resumption
behaviors. `continue_ok` receives the stack; `continue_err` receives the
stack and the error of the failed sub-computation. -/
structure AnyContinuation : Type where
  continue_ok : Stack → Stack × Except LuaError CallbackReturn
  continue_err : Stack → LuaError → Stack × Except LuaError CallbackReturn

/-- `AnyContinuation::from_fns_with`: build a `ContextContinuation` from
captured context data plus one behavior per resumption path; each trait
method applies its behavior to the context. -/
def AnyContinuation.from_fns_with {C : Type} (context : C)
    (ok : C → Stack → Stack × Except LuaError CallbackReturn)
    (err : C → Stack → LuaError → Stack × Except LuaError CallbackReturn) :
    AnyContinuation where
  continue_ok := fun stack => ok context stack
  continue_err := fun stack e => err context stack e

/-- `AnyContinuation::from_fns`: the context-free pair constructor, defined
through `from_fns_with` with a unit context. -/
def AnyContinuation.from_fns
    (ok : Stack → Stack × Except LuaError CallbackReturn)
    (err : Stack → LuaError → Stack × Except LuaError CallbackReturn) :
    AnyContinuation :=
  AnyContinuation.from_fns_with ()
    (fun _ stack => ok stack)
    (fun _ stack e => err stack e)

/-- `AnyContinuation::from_ok_fn`: success-only convenience constructor; the
auto-generated failure behavior is `|_, _, _, error| Err(error)` — it touches
nothing and re-raises the error. -/
def AnyContinuation.from_ok_fn
    (ok : Stack → Stack × Except LuaError CallbackReturn) :
    AnyContinuation :=
  AnyContinuation.from_fns_with ()
    (fun _ stack => ok stack)
    (fun _ stack e => (stack, .error e))

/-- `AnyContinuation::from_ok_fn_with`: success-only convenience constructor
with captured context; the auto-generated failure behavior is
`|_, _, _, error| Err(error)`. -/
def AnyContinuation.from_ok_fn_with {C : Type} (context : C)
    (ok : C → Stack → Stack × Except LuaError CallbackReturn) :
    AnyContinuation :=
  AnyContinuation.from_fns_with context
    (fun ctx stack => ok ctx stack)
    (fun _ stack e => (stack, .error e))

/-- The thread heap; a `Thread<'gc>` value on the stack is an index into
it. -/
abbrev ThreadHeap : Type := List Thread

/-- `ThreadSequence::step` (coroutine.rs lines 61–98). `stepPrim` is the
external `Thread::step` single-step primitive, modelled from the spec as an
oracle that advances the thread or fails. The source reads the thread out of
stack slot 0 (`panic!("thread lost from stack")` if it is not there) and
dispatches on the thread's mode: `Return` clears the stack, extracts the
final result with `take_return(mc).unwrap()`, pushes `true` and the results
or `false` and the error's value, and finishes with `Return`; `Normal` runs
`thread.step(mc).unwrap()` and reports not-done (`Ok(None)`); any other mode
is a `BadThreadMode { expected: Normal, found: mode }` error. -/
def ThreadSequence.step (stepPrim : Thread → Except LuaError Thread)
    (threads : ThreadHeap) (stack : Stack) :
    RunResult (Option CallbackReturn) × ThreadHeap × Stack :=
  match (stack[0]? : Option Value) with
  | some (.thread tid) =>
    match (threads[tid]? : Option Thread) with
    | some th =>
      match th.mode with
      | .Return =>
        match th.take_return with
        | (some (.ok res), th') =>
          (.ok (some .Return), threads.set tid th', .boolean true :: res)
        | (some (.error e), th') =>
          (.ok (some .Return), threads.set tid th', [.boolean false, e.to_value])
        | (none, _) => (.panicked ("called unwrap on a None value"), threads, [])
      | .Normal =>
        match stepPrim th with
        | .ok th' => (.ok none, threads.set tid th', stack)
        | .error _ => (.panicked ("called unwrap on an Err value"), threads, stack)
      | _ => (.err (.badThreadMode .Normal th.mode), threads, stack)
    | none => (.panicked ("dangling thread pointer"), threads, stack)
  | _ => (.panicked ("thread lost from stack"), threads, stack)

/-- The `coroutine.create` native function (coroutine.rs lines 15–32): reads
stack slot 0 (or Nil), fails with `TypeError { expected: "function", found }`
unless it is a function, otherwise allocates a fresh thread, starts it
suspended on the function, clears the stack and pushes the thread. -/
def coroutine_create (threads : ThreadHeap) (stack : Stack) :
    RunResult CallbackReturn × ThreadHeap × Stack :=
  match (stack[0]?).getD Value.nil with
  | .function f =>
    match Thread.new.start_suspended f with
    | .ok th => (.ok .Return, threads ++ [th], [.thread threads.length])
    | .error _ => (.panicked ("called unwrap on an Err value"), threads, stack)
  | v => (.err (.typeError ("function") v.type_name), threads, stack)

/-- The `coroutine.resume` native function (coroutine.rs lines 41–101): reads
stack slot 0 (or Nil), fails with `TypeError { expected: "thread", found }`
unless it is a thread; drains the remaining stack values (positions 1..)
into the thread's `resume` transition; if that transition rejects the mode,
fails with `RuntimeError("cannot resume thread")`; otherwise hands back the
`ThreadSequence` stateful step object. -/
def coroutine_resume (threads : ThreadHeap) (stack : Stack) :
    RunResult CallbackReturn × ThreadHeap × Stack :=
  match (stack[0]?).getD Value.nil with
  | .thread tid =>
    match (threads[tid]? : Option Thread) with
    | some th =>
      match th.resume (stack.drop 1) with
      | .ok th' =>
        (.ok (.Sequence .threadSequence), threads.set tid th', stack.take 1)
      | .error _ =>
        (.err (.runtimeError (.string ("cannot resume thread"))), threads, stack.take 1)
    | none => (.panicked ("dangling thread pointer"), threads, stack)
  | v => (.err (.typeError ("thread") v.type_name), threads, stack)

/-- The mode-to-status mapping inside `coroutine.status` (coroutine.rs lines
126–131). -/
def ThreadMode.status_string : ThreadMode → String
  | .Stopped => ("dead")
  | .Return => ("dead")
  | .Running => ("running")
  | .Normal => ("normal")
  | .Suspended => ("suspended")

/-- The `coroutine.status` native function (coroutine.rs lines 110–136):
reads stack slot 0 (or Nil), fails with `TypeError { expected: "thread",
found }` unless it is a thread; otherwise clears the stack and pushes the
status string of the thread's current mode. -/
def coroutine_status (threads : ThreadHeap) (stack : Stack) :
    RunResult CallbackReturn × ThreadHeap × Stack :=
  match (stack[0]?).getD Value.nil with
  | .thread tid =>
    match (threads[tid]? : Option Thread) with
    | some th => (.ok .Return, threads, [.string th.mode.status_string])
    | none => (.panicked ("dangling thread pointer"), threads, stack)
  | v => (.err (.typeError ("thread") v.type_name), threads, stack)

/-- The `coroutine.yield` native function (coroutine.rs line 145): always
succeeds immediately with a `Yield` outcome carrying no continuation. -/
def coroutine_yield (threads : ThreadHeap) (stack : Stack) :
    RunResult CallbackReturn × ThreadHeap × Stack :=
  (.ok (.Yield none), threads, stack)

/-- C1: constructing an opaque callable handle from any concrete
implementation of the native-call interface never fails (`AnyCallback.new` is
total), and calling the resulting handle on any operand stack invokes exactly
the implementation's call logic on that stack — the result and the stack side
effects equal those of invoking the implementation directly, so the handle's
call fails exactly when the implementation's call fails. -/
theorem anycallback_new_call_invokes_impl (heap : CallbackHeap) (c : CallbackImpl)
    (s : Stack) :
    AnyCallback.call (AnyCallback.new heap c).1 (AnyCallback.new heap c).2 s = c s ∧
    (∀ e, (AnyCallback.call (AnyCallback.new heap c).1 (AnyCallback.new heap c).2 s).2 =
        .error e ↔ (c s).2 = .error e) := by
  have h : AnyCallback.call (AnyCallback.new heap c).1 (AnyCallback.new heap c).2 s = c s := by
    simp [AnyCallback.call, AnyCallback.new, List.getElem?_concat_length]
  exact ⟨h, fun e => by rw [h]⟩

/-- Witness for C1 at a concrete implementation and stack. -/
theorem anycallback_new_call_invokes_impl_witness :
    AnyCallback.call (AnyCallback.new [] (fun s => (s, .ok .Return))).1
      (AnyCallback.new [] (fun s => (s, .ok .Return))).2 [.nil] = ([.nil], .ok .Return) :=
  (anycallback_new_call_invokes_impl [] (fun s => (s, .ok .Return)) [.nil]).1

/-- C8: two opaque callable handles are equal iff they reference the same
heap allocation (`as_ptr` identity); this equality is reflexive and
symmetric; hashing agrees with it (equal handles feed the same pointer to the
hasher); and two handles produced by two separate constructions — even from
identical captured state — are unequal. -/
theorem anycallback_identity_equality :
    (∀ a b : AnyCallback, AnyCallback.eqv a b = true ↔ a.as_ptr = b.as_ptr) ∧
    (∀ a : AnyCallback, AnyCallback.eqv a a = true) ∧
    (∀ a b : AnyCallback, AnyCallback.eqv a b = AnyCallback.eqv b a) ∧
    (∀ (hasher : Nat → Nat) (a b : AnyCallback), AnyCallback.eqv a b = true →
      AnyCallback.hashWith hasher a = AnyCallback.hashWith hasher b) ∧
    (∀ (heap : CallbackHeap) (c c' : CallbackImpl),
      AnyCallback.eqv (AnyCallback.new heap c).2
        (AnyCallback.new (AnyCallback.new heap c).1 c').2 = false) := by
  refine ⟨fun a b => ?_, fun a => ?_, fun a b => ?_, fun hasher a b hab => ?_,
    fun heap c c' => ?_⟩
  · simp [AnyCallback.eqv]
  · simp [AnyCallback.eqv]
  · by_cases h : a.as_ptr = b.as_ptr <;> simp [AnyCallback.eqv, h, eq_comm]
  · have : a.as_ptr = b.as_ptr := by simpa [AnyCallback.eqv] using hab
    simp [AnyCallback.hashWith, this]
  · simp [AnyCallback.eqv, AnyCallback.new, AnyCallback.as_ptr]

/-- Witness for C8: hashing agreement discharged at a concrete pair of equal
handles, plus reflexivity at a concrete handle. -/
theorem anycallback_identity_equality_witness :
    AnyCallback.hashWith (fun n => n * 2) ⟨5⟩ = AnyCallback.hashWith (fun n => n * 2) ⟨5⟩ ∧
    AnyCallback.eqv ⟨3⟩ ⟨3⟩ = true :=
  ⟨anycallback_identity_equality.2.2.2.1 (fun n => n * 2) ⟨5⟩ ⟨5⟩ (by decide),
   anycallback_identity_equality.2.1 ⟨3⟩⟩

/-- C9: a continuation built via the success-only convenience constructors
(`from_ok_fn`, `from_ok_fn_with`), when invoked on the failure path with any
stack and any error, returns exactly `Err(error)` — the original error
unchanged — and leaves the stack untouched. -/
theorem from_ok_fn_err_reraises :
    (∀ (ok : Stack → Stack × Except LuaError CallbackReturn) (s : Stack) (e : LuaError),
      (AnyContinuation.from_ok_fn ok).continue_err s e = (s, .error e)) ∧
    (∀ (C : Type) (context : C)
        (ok : C → Stack → Stack × Except LuaError CallbackReturn)
        (s : Stack) (e : LuaError),
      (AnyContinuation.from_ok_fn_with context ok).continue_err s e = (s, .error e)) :=
  ⟨fun _ _ _ => rfl, fun _ _ _ _ _ => rfl⟩

/-- C2: when the polled thread's mode is `Return`, the step clears the
operand stack, then pushes `true` followed by the thread's final result
values when the thread finished successfully, or `false` followed by the
error's value when it failed, and returns the terminal `Return` outcome. -/
theorem thread_sequence_step_return_mode
    (stepPrim : Thread → Except LuaError Thread)
    (threads : ThreadHeap) (stack : Stack) (tid : Nat) (th : Thread)
    (r : Except LuaError (List Value))
    (h0 : (stack[0]? : Option Value) = some (.thread tid))
    (h1 : (threads[tid]? : Option Thread) = some th)
    (h2 : th.mode = .Return)
    (h3 : th.pendingReturn = some r) :
    ThreadSequence.step stepPrim threads stack =
      (.ok (some .Return),
       threads.set tid { th with mode := .Stopped, pendingReturn := none },
       match r with
       | .ok res => .boolean true :: res
       | .error e => [.boolean false, e.to_value]) := by
  simp only [ThreadSequence.step, h0, h1, Thread.take_return, h2, h3]
  cases r <;> rfl

/-- Witness for C2: a finished thread carrying results `(1, 2)` yields the
stack `(true, 1, 2)` and the `Return` outcome, and a failed thread carrying
an error yields `(false, <error value>)`. -/
theorem thread_sequence_step_return_mode_witness :
    ThreadSequence.step (fun t => .ok t)
        [⟨.Return, none, some (.ok [.integer 1, .integer 2]), []⟩] [.thread 0] =
      (.ok (some .Return), [⟨.Stopped, none, none, []⟩],
       [.boolean true, .integer 1, .integer 2]) ∧
    ThreadSequence.step (fun t => .ok t)
        [⟨.Return, none, some (.error (.runtimeError (.integer 9))), []⟩] [.thread 0] =
      (.ok (some .Return), [⟨.Stopped, none, none, []⟩],
       [.boolean false, .integer 9]) := by
  constructor
  · have h := thread_sequence_step_return_mode (fun t => .ok t)
      [⟨.Return, none, some (.ok [.integer 1, .integer 2]), []⟩] [.thread 0] 0
      ⟨.Return, none, some (.ok [.integer 1, .integer 2]), []⟩
      (.ok [.integer 1, .integer 2]) rfl rfl rfl rfl
    simpa using h
  · have h := thread_sequence_step_return_mode (fun t => .ok t)
      [⟨.Return, none, some (.error (.runtimeError (.integer 9))), []⟩] [.thread 0] 0
      ⟨.Return, none, some (.error (.runtimeError (.integer 9))), []⟩
      (.error (.runtimeError (.integer 9))) rfl rfl rfl rfl
    simpa using h

/-- C3 (counterexample to the claim as stated): at a concrete thread in the
`Normal` mode whose single-step primitive fails, the step does not surface
the failure as the operation's error result — it panics (the source calls
`thread.step(mc).unwrap()`), so the outcome is a panic, not the primitive's
error. -/
theorem thread_step_failure_panics_cex :
    (fun _ : Thread =>
        (Except.error (LuaError.runtimeError (.integer 7)) : Except LuaError Thread))
      ⟨.Normal, none, none, []⟩ = .error (.runtimeError (.integer 7)) ∧
    (ThreadSequence.step (fun _ => .error (.runtimeError (.integer 7)))
        [⟨.Normal, none, none, []⟩] [.thread 0]).1 =
      .panicked ("called unwrap on an Err value") ∧
    (ThreadSequence.step (fun _ => .error (.runtimeError (.integer 7)))
        [⟨.Normal, none, none, []⟩] [.thread 0]).1 ≠
      .err (.runtimeError (.integer 7)) := by
  refine ⟨rfl, rfl, by decide⟩

/-- C3 (amended): when the polled thread's mode is `Normal`, the step
advances the thread via its single-step primitive and reports not-done
(`Ok(None)`) when the primitive succeeds; when the primitive fails, the step
panics (the source unwraps the result), so the failure is not returned as a
script-visible error. -/
theorem thread_sequence_step_normal_mode
    (stepPrim : Thread → Except LuaError Thread)
    (threads : ThreadHeap) (stack : Stack) (tid : Nat) (th : Thread)
    (h0 : (stack[0]? : Option Value) = some (.thread tid))
    (h1 : (threads[tid]? : Option Thread) = some th)
    (h2 : th.mode = .Normal) :
    (∀ th', stepPrim th = .ok th' →
      ThreadSequence.step stepPrim threads stack = (.ok none, threads.set tid th', stack)) ∧
    (∀ e, stepPrim th = .error e →
      ThreadSequence.step stepPrim threads stack =
        (.panicked ("called unwrap on an Err value"), threads, stack)) := by
  constructor
  · intro th' hs
    simp only [ThreadSequence.step, h0, h1, h2, hs]
  · intro e hs
    simp only [ThreadSequence.step, h0, h1, h2, hs]

/-- Witness for C3 (amended): a `Normal`-mode thread whose primitive succeeds
is advanced and the step reports not-done. -/
theorem thread_sequence_step_normal_mode_witness :
    ThreadSequence.step (fun t => .ok { t with mode := .Return })
        [⟨.Normal, some 7, none, []⟩] [.thread 0] =
      (.ok none, [⟨.Return, some 7, none, []⟩], [.thread 0]) := by
  have h := (thread_sequence_step_normal_mode (fun t => .ok { t with mode := .Return })
    [⟨.Normal, some 7, none, []⟩] [.thread 0] 0 ⟨.Normal, some 7, none, []⟩
    rfl rfl rfl).1 ⟨.Return, some 7, none, []⟩ rfl
  simpa using h

/-- C4: when the polled thread's mode is neither `Return` nor `Normal` (that
is, `Running`, `Suspended`, or `Stopped`), the step fails with a
bad-thread-mode error reporting the expected mode (`Normal`) and the mode
actually found. -/
theorem thread_sequence_step_bad_mode
    (stepPrim : Thread → Except LuaError Thread)
    (threads : ThreadHeap) (stack : Stack) (tid : Nat) (th : Thread)
    (h0 : (stack[0]? : Option Value) = some (.thread tid))
    (h1 : (threads[tid]? : Option Thread) = some th)
    (h2 : th.mode ≠ .Return) (h3 : th.mode ≠ .Normal) :
    ThreadSequence.step stepPrim threads stack =
      (.err (.badThreadMode .Normal th.mode), threads, stack) := by
  simp only [ThreadSequence.step, h0, h1]

/-- Witness for C4: a `Suspended` thread observed by the polling step
produces the bad-mode error with expected `Normal`, found `Suspended`. -/
theorem thread_sequence_step_bad_mode_witness :
    ThreadSequence.step (fun t => .ok t) [⟨.Suspended, none, none, []⟩] [.thread 0] =
      (.err (.badThreadMode .Normal .Suspended),
       [⟨.Suspended, none, none, []⟩], [.thread 0]) := by
  have h := thread_sequence_step_bad_mode (fun t => .ok t)
    [⟨.Suspended, none, none, []⟩] [.thread 0] 0 ⟨.Suspended, none, none, []⟩
    rfl rfl (by decide) (by decide)
  simpa using h

/-- C10: the polling step has the unstated precondition that operand-stack
slot 0 still holds the thread value that `resume` left there: under that
precondition the `panic!("thread lost from stack")` branch is unreachable,
and when slot 0 does not hold a thread value the step panics with exactly
that message instead of returning a script-visible error. -/
theorem thread_sequence_step_thread_precondition
    (stepPrim : Thread → Except LuaError Thread)
    (threads : ThreadHeap) (stack : Stack) :
    (∀ tid, (stack[0]? : Option Value) = some (.thread tid) →
      (ThreadSequence.step stepPrim threads stack).1 ≠
        .panicked ("thread lost from stack")) ∧
    ((∀ tid, (stack[0]? : Option Value) ≠ some (.thread tid)) →
      ThreadSequence.step stepPrim threads stack =
        (.panicked ("thread lost from stack"), threads, stack)) := by
  constructor
  · intro tid h0 hc
    simp only [ThreadSequence.step, h0] at hc
    cases h1 : (threads[tid]? : Option Thread) with
    | none =>
      simp only [h1] at hc
      exact absurd (RunResult.panicked.inj hc) (by decide)
    | some th =>
      simp only [h1] at hc
      cases hm : th.mode with
      | Return =>
        simp only [hm] at hc
        rcases htr : th.take_return with ⟨res?, th'⟩
        simp only [htr] at hc
        rcases res? with _ | r
        · exact absurd (RunResult.panicked.inj hc) (by decide)
        · cases r <;> exact RunResult.noConfusion hc
      | Normal =>
        simp only [hm] at hc
        cases hs : stepPrim th with
        | ok th' =>
          simp only [hs] at hc
          exact RunResult.noConfusion hc
        | error e =>
          simp only [hs] at hc
          exact absurd (RunResult.panicked.inj hc) (by decide)
      | Running =>
        simp only [hm] at hc
        exact RunResult.noConfusion hc
      | Suspended =>
        simp only [hm] at hc
        exact RunResult.noConfusion hc
      | Stopped =>
        simp only [hm] at hc
        exact RunResult.noConfusion hc
  · intro hno
    cases h0 : (stack[0]? : Option Value) with
    | none => simp only [ThreadSequence.step, h0]
    | some v =>
      cases v with
      | thread tid => exact absurd h0 (hno tid)
      | nil => simp only [ThreadSequence.step, h0]
      | boolean b => simp only [ThreadSequence.step, h0]
      | integer n => simp only [ThreadSequence.step, h0]
      | string s => simp only [ThreadSequence.step, h0]
      | table t => simp only [ThreadSequence.step, h0]
      | function f => simp only [ThreadSequence.step, h0]

/-- Witness for C10: with a thread at slot 0 the lost-thread panic does not
occur; with a non-thread at slot 0 the step panics with exactly that
message. -/
theorem thread_sequence_step_thread_precondition_witness :
    (ThreadSequence.step (fun t => .ok t) [] [.thread 0]).1 ≠
      .panicked ("thread lost from stack") ∧
    ThreadSequence.step (fun t => .ok t) [] [.integer 1] =
      (.panicked ("thread lost from stack"), [], [.integer 1]) :=
  ⟨(thread_sequence_step_thread_precondition (fun t => .ok t) [] [.thread 0]).1 0 rfl,
   (thread_sequence_step_thread_precondition (fun t => .ok t) [] [.integer 1]).2
     (fun _ h => Value.noConfusion (Option.some.inj h))⟩

/-- C5: `coroutine.create` fails with a type error whose expected field is
`"function"` and whose found field is the argument's type name when the first
argument is not a function; on a function it succeeds, allocating a new
thread bound to that function in the `Suspended` mode (whose status string is
therefore `"suspended"`) and returning it. -/
theorem coroutine_create_spec (threads : ThreadHeap) (stack : Stack) :
    (∀ v, (stack[0]?).getD Value.nil = v → (∀ f, v ≠ .function f) →
      coroutine_create threads stack =
        (.err (.typeError ("function") v.type_name), threads, stack)) ∧
    (∀ f, (stack[0]?).getD Value.nil = .function f →
      coroutine_create threads stack =
        (.ok .Return, threads ++ [⟨.Suspended, some f, none, []⟩],
         [.thread threads.length]) ∧
      (⟨.Suspended, some f, none, []⟩ : Thread).mode.status_string = ("suspended")) := by
  constructor
  · intro v hv hnf
    simp only [coroutine_create, hv]
  · intro f hf
    refine ⟨?_, rfl⟩
    simp only [coroutine_create, hf, Thread.new, Thread.start_suspended]

/-- Witness for C5: creating from a function yields a suspended thread;
creating from a number yields the documented type error. -/
theorem coroutine_create_spec_witness :
    coroutine_create [] [.function 7] =
      (.ok .Return, [⟨.Suspended, some 7, none, []⟩], [.thread 0]) ∧
    coroutine_create [] [.integer 3] =
      (.err (.typeError ("function") ("number")), [], [.integer 3]) := by
  constructor
  · exact ((coroutine_create_spec [] [.function 7]).2 7 rfl).1
  · have h := (coroutine_create_spec [] [.integer 3]).1 (.integer 3) rfl
      (fun _ h => Value.noConfusion h)
    simpa [Value.type_name] using h

/-- C6: `coroutine.resume` fails with a type error whose expected field is
`"thread"` and whose found field is the argument's type name when the first
argument is not a thread; when the thread's `resume` transition rejects the
current mode (it is not `Suspended`) it fails with a runtime error carrying
exactly the message `"cannot resume thread"`; otherwise it forwards the
remaining stack values (positions 1 onward) as resume arguments and returns
the `ThreadSequence` stateful step object. -/
theorem coroutine_resume_spec (threads : ThreadHeap) (stack : Stack) :
    (∀ v, (stack[0]?).getD Value.nil = v → (∀ tid, v ≠ .thread tid) →
      coroutine_resume threads stack =
        (.err (.typeError ("thread") v.type_name), threads, stack)) ∧
    (∀ tid th, (stack[0]?).getD Value.nil = .thread tid →
        (threads[tid]? : Option Thread) = some th → th.mode ≠ .Suspended →
      coroutine_resume threads stack =
        (.err (.runtimeError (.string ("cannot resume thread"))), threads,
         stack.take 1)) ∧
    (∀ tid th, (stack[0]?).getD Value.nil = .thread tid →
        (threads[tid]? : Option Thread) = some th → th.mode = .Suspended →
      coroutine_resume threads stack =
        (.ok (.Sequence .threadSequence),
         threads.set tid { th with mode := .Normal, resumeArgs := stack.drop 1 },
         stack.take 1)) := by
  refine ⟨fun v hv hnt => ?_, fun tid th ht hth hm => ?_, fun tid th ht hth hm => ?_⟩
  · simp only [coroutine_resume, hv]
  · simp only [coroutine_resume, ht, hth, Thread.resume]
  · simp only [coroutine_resume, ht, hth, Thread.resume, hm]

/-- Witness for C6: resuming a suspended thread forwards the trailing stack
values as resume arguments and hands back the step object; resuming a dead
thread produces the documented runtime error. -/
theorem coroutine_resume_spec_witness :
    coroutine_resume [⟨.Suspended, some 7, none, []⟩] [.thread 0, .integer 4] =
      (.ok (.Sequence .threadSequence),
       [⟨.Normal, some 7, none, [.integer 4]⟩], [.thread 0]) ∧
    coroutine_resume [⟨.Stopped, none, none, []⟩] [.thread 0] =
      (.err (.runtimeError (.string ("cannot resume thread"))),
       [⟨.Stopped, none, none, []⟩], [.thread 0]) := by
  constructor
  · have h := (coroutine_resume_spec [⟨.Suspended, some 7, none, []⟩]
      [.thread 0, .integer 4]).2.2 0 ⟨.Suspended, some 7, none, []⟩ rfl rfl rfl
    simpa using h
  · have h := (coroutine_resume_spec [⟨.Stopped, none, none, []⟩] [.thread 0]).2.1 0
      ⟨.Stopped, none, none, []⟩ rfl rfl (by decide)
    simpa using h

/-- C7: `coroutine.status` fails with a type error (expected `"thread"`) when
the first argument is not a thread; on a thread it succeeds and returns
exactly the string determined by the thread's current mode — `"dead"` for
`Stopped` or `Return`, `"running"` for `Running`, `"normal"` for `Normal`,
and `"suspended"` for `Suspended`. -/
theorem coroutine_status_spec (threads : ThreadHeap) (stack : Stack) :
    (∀ v, (stack[0]?).getD Value.nil = v → (∀ tid, v ≠ .thread tid) →
      coroutine_status threads stack =
        (.err (.typeError ("thread") v.type_name), threads, stack)) ∧
    (∀ tid th, (stack[0]?).getD Value.nil = .thread tid →
        (threads[tid]? : Option Thread) = some th →
      coroutine_status threads stack =
        (.ok .Return, threads, [.string th.mode.status_string])) ∧
    (ThreadMode.status_string .Stopped = ("dead") ∧
     ThreadMode.status_string .Return = ("dead") ∧
     ThreadMode.status_string .Running = ("running") ∧
     ThreadMode.status_string .Normal = ("normal") ∧
     ThreadMode.status_string .Suspended = ("suspended")) := by
  refine ⟨fun v hv hnt => ?_, fun tid th ht hth => ?_, rfl, rfl, rfl, rfl, rfl⟩
  · simp only [coroutine_status, hv]
  · simp only [coroutine_status, ht, hth]

/-- Witness for C7: the status of a concrete `Return`-mode thread is
`"dead"`, and asking the status of a number is the documented type error. -/
theorem coroutine_status_spec_witness :
    coroutine_status [⟨.Return, none, some (.ok []), []⟩] [.thread 0] =
      (.ok .Return, [⟨.Return, none, some (.ok []), []⟩], [.string ("dead")]) ∧
    coroutine_status [] [.integer 5] =
      (.err (.typeError ("thread") ("number")), [], [.integer 5]) := by
  constructor
  · have h := (coroutine_status_spec [⟨.Return, none, some (.ok []), []⟩]
      [.thread 0]).2.1 0 ⟨.Return, none, some (.ok []), []⟩ rfl rfl
    simpa [ThreadMode.status_string] using h
  · have h := (coroutine_status_spec [] [.integer 5]).1 (.integer 5) rfl
      (fun _ h => Value.noConfusion h)
    simpa [Value.type_name] using h

end Piccolo
